import Mathlib

/-!
Shallow embedding of the portfolio-backend request pipelines.

The repository holds three route-handler variants:
* `src/unnamed/part_000` — the Resend-based server (MongoDB persistence,
  `Promise.all` dual dispatch, health endpoint with `dbState`);
* `src/server.js`, first document — the SMTP (nodemailer) server with the same
  structure (MongoDB persistence, `Promise.all` dual dispatch);
* `src/server.js`, second document ("legacy") — an older nodemailer server with
  no database at all, an email-regex check inside the contact route, two
  sequential `await transporter.sendMail` calls, a `debug` field in the catch
  response, and a health endpoint without `dbState`.

Each handler is embedded as a pure function from an environment (the outcomes
of the external store/mailer operations, plus configuration) and the request
body to the HTTP response together with the ordered trace of attempted
external effects.
-/

/-- JavaScript truthiness of an optional string field of `req.body`:
`undefined` and the empty string are falsy, every other string is truthy. -/
def truthy : Option String → Bool
  | none => false
  | some s => !s.isEmpty

/-- Characters matched by the JavaScript regex class `\s`. -/
def isJsWhitespaceChar (c : Char) : Bool :=
  c == ' ' || c == '\t' || c == '\n' || c == '\r' || c == '\x0b' || c == '\x0c' ||
  c == '\u00A0' || c == '\u1680' || ('\u2000' ≤ c && c ≤ '\u200A') ||
  c == '\u2028' || c == '\u2029' || c == '\u202F' || c == '\u205F' ||
  c == '\u3000' || c == '\uFEFF'

/-- Characters matched by the regex class `[^\s@]`. -/
def isAtomChar (c : Char) : Bool :=
  !isJsWhitespaceChar c && c != '@'

/-- The test `/^[^\s@]+@[^\s@]+\.[^\s@]+$/.test s` from both subscribe routes
and the legacy contact route: the string decomposes as
`A ++ "@" ++ B ++ "." ++ C` with `A`, `B`, `C` non-empty and free of
whitespace and `@`.  The decomposition is searched over the positions `i` of
the `@` and `j` of the `.`, exactly the backtracking semantics of the regex. -/
def emailRegexTest (s : String) : Bool :=
  let cs := s.toList
  let n := cs.length
  (List.range n).any fun i =>
    (List.range n).any fun j =>
      decide (1 ≤ i) && decide (i + 2 ≤ j) && decide (j + 2 ≤ n) &&
      (cs.getD i ' ' == '@') && (cs.getD j ' ' == '.') &&
      (cs.take i).all isAtomChar &&
      ((cs.drop (i + 1)).take (j - (i + 1))).all isAtomChar &&
      (cs.drop (j + 1)).all isAtomChar

/-- A JSON response produced at the request boundary: HTTP status, the
`success` flag, the `message` text, and the optional `debug` field (present
only in the legacy contact route's catch). -/
structure Resp where
  status : Nat
  success : Bool
  message : String
  debug : Option String
deriving DecidableEq, Repr

/-- A persisted contact record (the `Contact` mongoose model; its `date`
field is defaulted by the store and not modelled). -/
structure ContactMessage where
  name : String
  email : String
  subject : String
  message : String
deriving DecidableEq, Repr

/-- One outbound email handed to the mail dispatcher. -/
structure Mail where
  fromAddr : String
  toAddr : String
  replyTo : Option String
  subject : String
  html : String
deriving DecidableEq, Repr

/-- The body of a `POST /api/contact` request (each field may be absent). -/
structure ContactBody where
  name : Option String
  email : Option String
  subject : Option String
  message : Option String
deriving DecidableEq, Repr

/-- Outcomes of the external operations a contact request consumes, plus the
`EMAIL_USER` configuration: `none` means the operation succeeds, `some m`
means it rejects with error message `m`. -/
structure ContactEnv where
  emailUser : String
  saveError : Option String
  ownerSendError : Option String
  userSendError : Option String
deriving DecidableEq, Repr

/-- An attempted external effect of the contact pipeline, in program order:
a store write of a record or a dispatch of a mail, each tagged with whether
the operation succeeded. -/
inductive CEvent
  | save (rec : ContactMessage) (ok : Bool)
  | send (m : Mail) (ok : Bool)
deriving DecidableEq, Repr

/-- Whether a contact-pipeline event is an email-send attempt. -/
def CEvent.isSend : CEvent → Bool
  | .send _ _ => true
  | .save _ _ => false

/-- Whether a contact-pipeline event is a successful store write. -/
def CEvent.isOkSave : CEvent → Bool
  | .save _ ok => ok
  | .send _ _ => false

/-- The validation of the contact routes:
`if (!name || !email || !subject || !message)` rejects, so the request is
valid exactly when all four fields are truthy. -/
def contactValid (b : ContactBody) : Bool :=
  truthy b.name && truthy b.email && truthy b.subject && truthy b.message

/-- The 400 response of the contact routes' validation step. -/
def validationResp : Resp :=
  { status := 400, success := false, message := "Todos los campos son requeridos", debug := none }

/-- The record built by `new Contact({ name, email, subject, message })`. -/
def mkContact (b : ContactBody) : ContactMessage :=
  { name := b.name.getD "", email := b.email.getD "",
    subject := b.subject.getD "", message := b.message.getD "" }

/-- The notification mail of `part_000` (Resend variant): to the owner's
fixed address, reply-to the submitter. -/
def ownerMailResend (name email subject message : String) : Mail :=
  { fromAddr := "Portfolio <contacto@juliomunoz.dev>"
    toAddr := "julio.mun.cor@gmail.com"
    replyTo := some email
    subject := s!"🚀 Nuevo Mensaje: {subject}"
    html := s!"\n          <h3>Tienes un nuevo mensaje de contacto</h3>\n          <p><strong>Nombre:</strong> {name}</p>\n          <p><strong>Email:</strong> {email}</p>\n          <p><strong>Asunto:</strong> {subject}</p>\n          <p><strong>Mensaje:</strong></p>\n          <p>{message}</p>\n        " }

/-- The confirmation mail of `part_000` (Resend variant): to the submitter. -/
def userMailResend (name email subject : String) : Mail :=
  { fromAddr := "Julio Muñoz <contacto@juliomunoz.dev>"
    toAddr := email
    replyTo := none
    subject := "Confirmación de recepción - Julio Muñoz"
    html := s!"\n          <h3>¡Hola {name}!</h3>\n          <p>He recibido tu mensaje correctamente respecto a: <strong>\"{subject}\"</strong>.</p>\n          <p>Te agradezco el interés. Revisaré los detalles y me pondré en contacto contigo lo antes posible.</p>\n          <br>\n          <p>Saludos cordiales,</p>\n          <p><strong>Julio Muñoz</strong><br>Software Engineer</p>\n        " }

/-- The notification mail of the first `server.js` document (SMTP variant). -/
def ownerMailSmtp (emailUser name email subject message : String) : Mail :=
  let messageHtml := message.replace "\n" "<br>"
  { fromAddr := emailUser
    toAddr := emailUser
    replyTo := some email
    subject := s!"[Portfolio] {subject}"
    html := s!"\n        <h3>Nuevo Mensaje de {name}</h3>\n        <p><strong>Email:</strong> {email}</p>\n        <p><strong>Asunto:</strong> {subject}</p>\n        <hr>\n        <p>{messageHtml}</p>\n      " }

/-- The confirmation mail of the first `server.js` document (SMTP variant). -/
def userMailSmtp (emailUser name email : String) : Mail :=
  { fromAddr := emailUser
    toAddr := email
    replyTo := none
    subject := "Recibí tu mensaje - Julio Muñoz"
    html := s!"\n        <h3>¡Hola {name}!</h3>\n        <p>Gracias por escribirme. He recibido tu mensaje correctamente.</p>\n        <p>Te responderé pronto a este correo.</p>\n        <br><p>Saludos,<br>Julio Muñoz</p>\n      " }

/-- The admin mail of the legacy (second) `server.js` document. -/
def ownerMailLegacy (emailUser name email subject message : String) : Mail :=
  let messageHtml := message.replace "\n" "<br>"
  { fromAddr := emailUser
    toAddr := emailUser
    replyTo := some email
    subject := s!"[Portfolio] {subject}"
    html := s!"\n        <h2>Nuevo mensaje de contacto</h2>\n        <p><strong>Nombre:</strong> {name}</p>\n        <p><strong>Email:</strong> {email}</p>\n        <p><strong>Asunto:</strong> {subject}</p>\n        <h3>Mensaje:</h3>\n        <p>{messageHtml}</p>\n        <hr>\n        <p><small>Enviado desde tu portfolio web</small></p>\n      " }

/-- The confirmation mail of the legacy (second) `server.js` document. -/
def userMailLegacy (emailUser name email subject message : String) : Mail :=
  let messageHtml := message.replace "\n" "<br>"
  { fromAddr := emailUser
    toAddr := email
    replyTo := none
    subject := "Gracias por contactarme - Julio Muñoz"
    html := s!"\n        <h2>¡Hola {name}!</h2>\n        <p>Gracias por ponerte en contacto conmigo. He recibido tu mensaje y te responderé lo antes posible.</p>\n        <h3>Tu mensaje:</h3>\n        <p><strong>Asunto:</strong> {subject}</p>\n        <p>{messageHtml}</p>\n        <br>\n        <p>Saludos,<br>Julio Muñoz</p>\n        <hr>\n        <p><small>Este es un mensaje automático.</small></p>\n      " }

/-- `app.post('/api/contact')` of `src/unnamed/part_000`: validate, save the
record, then `Promise.all` over the two Resend sends (both are issued; the
join fails when either rejects); the catch maps any failure to a 500 with a
fixed message. -/
def contactHandlerResend (env : ContactEnv) (b : ContactBody) : Resp × List CEvent :=
  if !contactValid b then
    (validationResp, [])
  else
    let name := b.name.getD ""
    let email := b.email.getD ""
    let subject := b.subject.getD ""
    let message := b.message.getD ""
    match env.saveError with
    | some _ =>
        ({ status := 500, success := false, message := "Error interno del servidor.", debug := none },
         [CEvent.save ⟨name, email, subject, message⟩ false])
    | none =>
        let trace := [CEvent.save ⟨name, email, subject, message⟩ true,
                      CEvent.send (ownerMailResend name email subject message) env.ownerSendError.isNone,
                      CEvent.send (userMailResend name email subject) env.userSendError.isNone]
        match env.ownerSendError, env.userSendError with
        | none, none =>
            ({ status := 200, success := true, message := "¡Mensaje recibido! Te contactaré pronto.", debug := none },
             trace)
        | _, _ =>
            ({ status := 500, success := false, message := "Error interno del servidor.", debug := none },
             trace)

/-- `app.post('/api/contact')` of the first `server.js` document: same shape
as the Resend variant (validate, save, `Promise.all` over two `sendMail`
calls, catch-all 500). -/
def contactHandlerSmtp (env : ContactEnv) (b : ContactBody) : Resp × List CEvent :=
  if !contactValid b then
    (validationResp, [])
  else
    let name := b.name.getD ""
    let email := b.email.getD ""
    let subject := b.subject.getD ""
    let message := b.message.getD ""
    match env.saveError with
    | some _ =>
        ({ status := 500, success := false, message := "Error interno al procesar tu mensaje.", debug := none },
         [CEvent.save ⟨name, email, subject, message⟩ false])
    | none =>
        let trace := [CEvent.save ⟨name, email, subject, message⟩ true,
                      CEvent.send (ownerMailSmtp env.emailUser name email subject message) env.ownerSendError.isNone,
                      CEvent.send (userMailSmtp env.emailUser name email) env.userSendError.isNone]
        match env.ownerSendError, env.userSendError with
        | none, none =>
            ({ status := 200, success := true, message := "Mensaje enviado y guardado correctamente", debug := none },
             trace)
        | _, _ =>
            ({ status := 500, success := false, message := "Error interno al procesar tu mensaje.", debug := none },
             trace)

/-- `app.post('/api/contact')` of the legacy (second) `server.js` document:
validate truthiness, then additionally test the email against the regex,
then sequentially `await` the admin send and the confirmation send — there is
no database write at all; the catch maps any failure to a 500 whose body also
carries `debug: error.message`. -/
def contactHandlerLegacy (env : ContactEnv) (b : ContactBody) : Resp × List CEvent :=
  if !contactValid b then
    (validationResp, [])
  else
    let name := b.name.getD ""
    let email := b.email.getD ""
    let subject := b.subject.getD ""
    let message := b.message.getD ""
    if !emailRegexTest email then
      ({ status := 400, success := false, message := "Email inválido", debug := none }, [])
    else
      match env.ownerSendError with
      | some m =>
          ({ status := 500, success := false,
             message := "Error al enviar el mensaje. Por favor intenta nuevamente.", debug := some m },
           [CEvent.send (ownerMailLegacy env.emailUser name email subject message) false])
      | none =>
          match env.userSendError with
          | some m =>
              ({ status := 500, success := false,
                 message := "Error al enviar el mensaje. Por favor intenta nuevamente.", debug := some m },
               [CEvent.send (ownerMailLegacy env.emailUser name email subject message) true,
                CEvent.send (userMailLegacy env.emailUser name email subject message) false])
          | none =>
              ({ status := 200, success := true, message := "Mensaje enviado correctamente", debug := none },
               [CEvent.send (ownerMailLegacy env.emailUser name email subject message) true,
                CEvent.send (userMailLegacy env.emailUser name email subject message) true])

/-- The body of `GET /api/health`: `dbState` when the route reports it,
`message` when the legacy route reports its fixed text instead. -/
structure HealthResp where
  status : String
  dbState : Option String
  message : Option String
deriving DecidableEq, Repr

/-- `app.get('/api/health')` of `part_000` and of the first `server.js`
document: `dbState` is `Connected` exactly when
`mongoose.connection.readyState === 1`, read synchronously. -/
def healthHandler (readyState : Nat) : HealthResp :=
  { status := "OK",
    dbState := some (if readyState = 1 then "Connected" else "Disconnected"),
    message := none }

/-- `app.get('/api/health')` of the legacy (second) `server.js` document:
only a fixed status and message, no `dbState` field. -/
def healthHandlerLegacy : HealthResp :=
  { status := "OK", dbState := none, message := some "Backend funcionando correctamente" }

/-- Outcomes of the external operations a subscribe request consumes:
`existing` is the result of the `findOne` pre-check, `saveError` the outcome
of `newSubscriber.save()` (`none` = success, `some m` = rejection with
message `m` — the route never inspects the message, so a unique-constraint
violation and any other store failure are indistinguishable to it). -/
structure SubscribeEnv where
  existing : Bool
  saveError : Option String
deriving DecidableEq, Repr

/-- An attempted external effect of the subscription pipeline. -/
inductive SEvent
  | findOne (email : String)
  | save (email : String) (ok : Bool)
deriving DecidableEq, Repr

/-- `app.post('/api/subscribe')`, textually identical in `part_000` and in
the first `server.js` document: regex validation, `findOne` duplicate
pre-check, then `save`; the catch maps any failure to a 500 with the fixed
message `Error interno.`. -/
def subscribeHandler (env : SubscribeEnv) (emailField : Option String) : Resp × List SEvent :=
  if !truthy emailField || !emailRegexTest (emailField.getD "") then
    ({ status := 400, success := false, message := "Email inválido", debug := none }, [])
  else
    let email := emailField.getD ""
    if env.existing then
      ({ status := 400, success := false, message := "Este email ya está suscrito.", debug := none },
       [SEvent.findOne email])
    else
      match env.saveError with
      | some _ =>
          ({ status := 500, success := false, message := "Error interno.", debug := none },
           [SEvent.findOne email, SEvent.save email false])
      | none =>
          ({ status := 200, success := true, message := "¡Gracias por suscribirte!", debug := none },
           [SEvent.findOne email, SEvent.save email true])

/-- Replay a subscription trace against a store modelled as the list of
stored subscriber emails: only a successful save inserts. -/
def applySEvents (store : List String) : List SEvent → List String
  | [] => store
  | SEvent.findOne _ :: rest => applySEvents store rest
  | SEvent.save e true :: rest => applySEvents (store ++ [e]) rest
  | SEvent.save _ false :: rest => applySEvents store rest

/-- A matching email is a non-empty string (the regex needs at least one
character before the `@`). -/
theorem emailRegexTest_isEmpty (s : String) (h : emailRegexTest s = true) :
    s.isEmpty = false := by
  cases he : s.isEmpty
  · rfl
  · exfalso
    have hs : s = "" := (String.isEmpty_iff s).mp he
    rw [hs] at h
    exact absurd h (by decide)

/-- A healthy contact environment: store write and both sends succeed. -/
def envOk : ContactEnv :=
  { emailUser := "owner@gmail.com", saveError := none, ownerSendError := none, userSendError := none }

/-- A contact environment where the store write is rejected. -/
def envSaveFail : ContactEnv := { envOk with saveError := some "MongoNetworkError" }

/-- A contact environment where the first (admin) send is rejected. -/
def envOwnerFail : ContactEnv := { envOk with ownerSendError := some "Invalid login: 535-5.7.8" }

/-- The contact-form scenario body from the specification. -/
def bodyAna : ContactBody :=
  { name := some "Ana", email := some "ana@x.com", subject := some "Hi", message := some "Hello" }

/-- A contact body with a missing field. -/
def bodyNoName : ContactBody :=
  { name := none, email := some "ana@x.com", subject := some "Hi", message := some "Hello" }

/-- C3: a contact submission with any of the four fields missing or empty is
answered with the 400 validation response by every contact-route variant, and
the effect trace is empty — nothing is persisted and no email is sent. -/
theorem contact_validation_no_side_effects (env : ContactEnv) (b : ContactBody)
    (h : contactValid b = false) :
    contactHandlerResend env b = (validationResp, []) ∧
    contactHandlerSmtp env b = (validationResp, []) ∧
    contactHandlerLegacy env b = (validationResp, []) ∧
    validationResp.status = 400 ∧ validationResp.success = false := by
  refine ⟨?_, ?_, ?_, rfl, rfl⟩ <;>
    simp [contactHandlerResend, contactHandlerSmtp, contactHandlerLegacy, h]

theorem contact_validation_no_side_effects_witness :
    contactValid bodyNoName = false ∧
    (contactHandlerResend envOk bodyNoName = (validationResp, []) ∧
     contactHandlerSmtp envOk bodyNoName = (validationResp, []) ∧
     contactHandlerLegacy envOk bodyNoName = (validationResp, []) ∧
     validationResp.status = 400 ∧ validationResp.success = false) :=
  ⟨by decide, contact_validation_no_side_effects envOk bodyNoName (by decide)⟩

/-- C7: a subscription whose email is missing or fails the regex is answered
with 400 `Email inválido` and produces no store access at all — in particular
no Subscriber record is created. -/
theorem subscribe_invalid_email_rejected (env : SubscribeEnv) (emailField : Option String)
    (h : truthy emailField = false ∨ emailRegexTest (emailField.getD "") = false) :
    subscribeHandler env emailField =
      ({ status := 400, success := false, message := "Email inválido", debug := none }, []) := by
  rcases h with h | h <;> simp [subscribeHandler, h]

theorem subscribe_invalid_email_rejected_witness :
    subscribeHandler { existing := false, saveError := none } (some "bad") =
      ({ status := 400, success := false, message := "Email inválido", debug := none }, []) :=
  subscribe_invalid_email_rejected { existing := false, saveError := none } (some "bad")
    (Or.inr (by decide))

/-- C8: when the `findOne` pre-check finds the email already stored (exact,
case-sensitive string match against the store contents), the route answers 400
`Este email ya está suscrito.` and the only store access is the read — replaying
the trace leaves the store unchanged. -/
theorem subscribe_duplicate_precheck_rejected (store : List String) (email : String)
    (saveErr : Option String) (hmem : store.contains email = true)
    (hr : emailRegexTest email = true) :
    subscribeHandler { existing := store.contains email, saveError := saveErr } (some email) =
      ({ status := 400, success := false, message := "Este email ya está suscrito.", debug := none },
       [SEvent.findOne email]) ∧
    applySEvents store
      (subscribeHandler { existing := store.contains email, saveError := saveErr } (some email)).2 =
      store := by
  have hne : email.isEmpty = false := emailRegexTest_isEmpty email hr
  have hmem' : email ∈ store := by simpa using hmem
  refine ⟨?_, ?_⟩ <;> simp [subscribeHandler, truthy, hne, hr, hmem', applySEvents]

theorem subscribe_duplicate_precheck_rejected_witness :
    List.contains ["a@b.com"] "a@b.com" = true ∧
    (subscribeHandler { existing := List.contains ["a@b.com"] "a@b.com", saveError := none }
        (some "a@b.com") =
      ({ status := 400, success := false, message := "Este email ya está suscrito.", debug := none },
       [SEvent.findOne "a@b.com"]) ∧
     applySEvents ["a@b.com"]
       (subscribeHandler { existing := List.contains ["a@b.com"] "a@b.com", saveError := none }
         (some "a@b.com")).2 = ["a@b.com"]) :=
  ⟨by decide, subscribe_duplicate_precheck_rejected ["a@b.com"] "a@b.com" none
    (by decide) (by decide)⟩

/-- C4 counterexample: a save-time rejection — including a unique-constraint
(duplicate key) violation from a concurrent insert — is caught by the generic
catch and answered as HTTP 500 `Error interno.`, not as the 400 duplicate
rejection the claim states. -/
theorem subscribe_save_duplicate_cex :
    subscribeHandler
        { existing := false, saveError := some "E11000 duplicate key error collection" }
        (some "a@b.com") =
      ({ status := 500, success := false, message := "Error interno.", debug := none },
       [SEvent.findOne "a@b.com", SEvent.save "a@b.com" false]) ∧
    (subscribeHandler
        { existing := false, saveError := some "E11000 duplicate key error collection" }
        (some "a@b.com")).1.status ≠ 400 ∧
    (subscribeHandler
        { existing := false, saveError := some "E11000 duplicate key error collection" }
        (some "a@b.com")).1.message ≠ "Este email ya está suscrito." := by
  refine ⟨by decide, by decide, by decide⟩

/-- C4 amended: the subscribe route never inspects the save-time error, so any
store rejection of the insert — a concurrent duplicate's unique-constraint
violation included — is answered as HTTP 500 with the generic `Error interno.`
body; only the `findOne` pre-check produces the 400 duplicate response. -/
theorem subscribe_save_failure_internal_error (email m : String)
    (hr : emailRegexTest email = true) :
    subscribeHandler { existing := false, saveError := some m } (some email) =
      ({ status := 500, success := false, message := "Error interno.", debug := none },
       [SEvent.findOne email, SEvent.save email false]) := by
  have hne : email.isEmpty = false := emailRegexTest_isEmpty email hr
  simp [subscribeHandler, truthy, hne, hr]

theorem subscribe_save_failure_internal_error_witness :
    subscribeHandler { existing := false, saveError := some "E11000 duplicate key" }
        (some "a@b.com") =
      ({ status := 500, success := false, message := "Error interno.", debug := none },
       [SEvent.findOne "a@b.com", SEvent.save "a@b.com" false]) :=
  subscribe_save_failure_internal_error "a@b.com" "E11000 duplicate key" (by decide)

/-- C5 counterexample: the legacy health route's response has no `dbState`
field at all — its body is only `status: OK` plus a fixed message — so the
claim that `health()` reports `Connected`/`Disconnected` from the store
driver's state does not hold of it. -/
theorem legacy_health_no_dbstate_cex :
    healthHandlerLegacy.status = "OK" ∧ healthHandlerLegacy.dbState = none ∧
    healthHandlerLegacy.message = some "Backend funcionando correctamente" :=
  ⟨rfl, rfl, rfl⟩

/-- C5 amended: the health routes of `part_000` and of the first `server.js`
document always answer `status = OK` with `dbState = Connected` exactly when
`mongoose.connection.readyState` is 1 and `Disconnected` otherwise, read
synchronously; the legacy health route answers `status = OK` with a fixed
message and no `dbState` field. -/
theorem health_dbstate_amended (rs : Nat) :
    healthHandler rs =
      { status := "OK", dbState := some (if rs = 1 then "Connected" else "Disconnected"),
        message := none } ∧
    ((healthHandler rs).dbState = some "Connected" ↔ rs = 1) ∧
    healthHandlerLegacy =
      { status := "OK", dbState := none, message := some "Backend funcionando correctamente" } := by
  refine ⟨rfl, ?_, rfl⟩
  by_cases h : rs = 1 <;> simp [healthHandler, h]

/-- A non-empty string is not `isEmpty`. -/
theorem isEmpty_false_of_ne {s : String} (h : s ≠ "") : s.isEmpty = false := by
  cases hi : s.isEmpty
  · rfl
  · exact absurd ((String.isEmpty_iff s).mp hi) h

/-- What one contact run must look like for the persist-then-dispatch claim:
the number of successful store writes is one exactly when the store accepted
the write, the trace starts with that single write and everything after it is
a send attempt (so persistence completes strictly before any dispatch), and a
rejected write yields a 500 response with zero send attempts. -/
def PersistFirst (env : ContactEnv) (b : ContactBody) (out : Resp × List CEvent) : Prop :=
  List.countP CEvent.isOkSave out.2 = (if env.saveError = none then 1 else 0) ∧
  (∃ sends, out.2 = CEvent.save (mkContact b) env.saveError.isNone :: sends ∧
    sends.all CEvent.isSend = true) ∧
  (∀ m, env.saveError = some m →
    out.1.status = 500 ∧ List.countP CEvent.isSend out.2 = 0)

/-- C1: for every valid submission, both persisting contact variants write
exactly one ContactMessage, the write strictly precedes every email-send
attempt, and a rejected write is answered 500 with zero emails sent. -/
theorem contact_persistence_precedes_dispatch (env : ContactEnv) (b : ContactBody)
    (h : contactValid b = true) :
    PersistFirst env b (contactHandlerResend env b) ∧
    PersistFirst env b (contactHandlerSmtp env b) := by
  simp only [PersistFirst]
  cases hs : env.saveError with
  | some m =>
      have e1 : contactHandlerResend env b =
          ({ status := 500, success := false, message := "Error interno del servidor.",
             debug := none }, [CEvent.save (mkContact b) false]) := by
        simp [contactHandlerResend, h, hs, mkContact]
      have e2 : contactHandlerSmtp env b =
          ({ status := 500, success := false, message := "Error interno al procesar tu mensaje.",
             debug := none }, [CEvent.save (mkContact b) false]) := by
        simp [contactHandlerSmtp, h, hs, mkContact]
      refine ⟨⟨?_, ⟨[], ?_, rfl⟩, ?_⟩, ⟨?_, ⟨[], ?_, rfl⟩, ?_⟩⟩
      · rw [e1]; simp [hs, List.countP_cons, CEvent.isOkSave]
      · rw [e1]; simp [hs]
      · intro m' _; rw [e1]; exact ⟨rfl, by simp [List.countP_cons, CEvent.isSend]⟩
      · rw [e2]; simp [hs, List.countP_cons, CEvent.isOkSave]
      · rw [e2]; simp [hs]
      · intro m' _; rw [e2]; exact ⟨rfl, by simp [List.countP_cons, CEvent.isSend]⟩
  | none =>
      have e1 : (contactHandlerResend env b).2 =
          [CEvent.save (mkContact b) true,
           CEvent.send (ownerMailResend (b.name.getD "") (b.email.getD "") (b.subject.getD "")
             (b.message.getD "")) env.ownerSendError.isNone,
           CEvent.send (userMailResend (b.name.getD "") (b.email.getD "") (b.subject.getD ""))
             env.userSendError.isNone] := by
        rcases ho : env.ownerSendError with _ | mo <;> rcases hu : env.userSendError with _ | mu <;>
          simp [contactHandlerResend, h, hs, ho, hu, mkContact]
      have e2 : (contactHandlerSmtp env b).2 =
          [CEvent.save (mkContact b) true,
           CEvent.send (ownerMailSmtp env.emailUser (b.name.getD "") (b.email.getD "")
             (b.subject.getD "") (b.message.getD "")) env.ownerSendError.isNone,
           CEvent.send (userMailSmtp env.emailUser (b.name.getD "") (b.email.getD ""))
             env.userSendError.isNone] := by
        rcases ho : env.ownerSendError with _ | mo <;> rcases hu : env.userSendError with _ | mu <;>
          simp [contactHandlerSmtp, h, hs, ho, hu, mkContact]
      refine ⟨⟨?_, ?_, ?_⟩, ⟨?_, ?_, ?_⟩⟩
      · rw [e1]; simp [hs, List.countP_cons, CEvent.isOkSave, CEvent.isSend]
      · refine ⟨[CEvent.send (ownerMailResend (b.name.getD "") (b.email.getD "")
            (b.subject.getD "") (b.message.getD "")) env.ownerSendError.isNone,
          CEvent.send (userMailResend (b.name.getD "") (b.email.getD "") (b.subject.getD ""))
            env.userSendError.isNone], ?_, by simp [CEvent.isSend]⟩
        rw [e1]; rfl
      · exact fun m' hm' => Option.noConfusion hm'
      · rw [e2]; simp [hs, List.countP_cons, CEvent.isOkSave, CEvent.isSend]
      · refine ⟨[CEvent.send (ownerMailSmtp env.emailUser (b.name.getD "") (b.email.getD "")
            (b.subject.getD "") (b.message.getD "")) env.ownerSendError.isNone,
          CEvent.send (userMailSmtp env.emailUser (b.name.getD "") (b.email.getD ""))
            env.userSendError.isNone], ?_, by simp [CEvent.isSend]⟩
        rw [e2]; rfl
      · exact fun m' hm' => Option.noConfusion hm'

theorem contact_persistence_precedes_dispatch_witness :
    contactValid bodyAna = true ∧
    (PersistFirst envOk bodyAna (contactHandlerResend envOk bodyAna) ∧
     PersistFirst envOk bodyAna (contactHandlerSmtp envOk bodyAna)) :=
  ⟨by decide, contact_persistence_precedes_dispatch envOk bodyAna (by decide)⟩

/-- The body of the spec scenario with a non-empty but pattern-failing email. -/
def bodyBadEmail : ContactBody :=
  { name := some "Ana", email := some "bad", subject := some "Hi", message := some "Hello" }

/-- C6 counterexample: all four fields of `bodyBadEmail` are non-empty, yet the
legacy contact route rejects it with 400 `Email inválido` — an email-format
check is applied to a contact submission, and persistence is never reached. -/
theorem legacy_contact_email_format_cex :
    contactValid bodyBadEmail = true ∧
    contactHandlerLegacy envOk bodyBadEmail =
      ({ status := 400, success := false, message := "Email inválido", debug := none }, []) :=
  ⟨by decide, by decide⟩

/-- C6 amended: the two persisting contact variants enforce only truthiness —
every submission with four non-empty fields proceeds to the store write, with
no format check on any field — while the legacy `server.js` variant
additionally rejects, before any side effect, submissions whose email fails
the basic regex. -/
theorem contact_validation_scope_amended (env : ContactEnv) (b : ContactBody)
    (h : contactValid b = true) :
    (∃ rest, (contactHandlerResend env b).2 =
        CEvent.save (mkContact b) env.saveError.isNone :: rest) ∧
    (∃ rest, (contactHandlerSmtp env b).2 =
        CEvent.save (mkContact b) env.saveError.isNone :: rest) ∧
    (emailRegexTest (b.email.getD "") = false →
      contactHandlerLegacy env b =
        ({ status := 400, success := false, message := "Email inválido", debug := none }, [])) := by
  refine ⟨?_, ?_, fun hre => by simp [contactHandlerLegacy, h, hre]⟩
  · cases hs : env.saveError with
    | some m => exact ⟨[], by simp [contactHandlerResend, h, hs, mkContact]⟩
    | none =>
        refine ⟨[CEvent.send (ownerMailResend (b.name.getD "") (b.email.getD "")
            (b.subject.getD "") (b.message.getD "")) env.ownerSendError.isNone,
          CEvent.send (userMailResend (b.name.getD "") (b.email.getD "") (b.subject.getD ""))
            env.userSendError.isNone], ?_⟩
        rcases ho : env.ownerSendError with _ | mo <;> rcases hu : env.userSendError with _ | mu <;>
          simp [contactHandlerResend, h, hs, ho, hu, mkContact]
  · cases hs : env.saveError with
    | some m => exact ⟨[], by simp [contactHandlerSmtp, h, hs, mkContact]⟩
    | none =>
        refine ⟨[CEvent.send (ownerMailSmtp env.emailUser (b.name.getD "") (b.email.getD "")
            (b.subject.getD "") (b.message.getD "")) env.ownerSendError.isNone,
          CEvent.send (userMailSmtp env.emailUser (b.name.getD "") (b.email.getD ""))
            env.userSendError.isNone], ?_⟩
        rcases ho : env.ownerSendError with _ | mo <;> rcases hu : env.userSendError with _ | mu <;>
          simp [contactHandlerSmtp, h, hs, ho, hu, mkContact]

theorem contact_validation_scope_amended_witness :
    contactValid bodyBadEmail = true ∧
    ((∃ rest, (contactHandlerResend envOk bodyBadEmail).2 =
        CEvent.save (mkContact bodyBadEmail) envOk.saveError.isNone :: rest) ∧
     (∃ rest, (contactHandlerSmtp envOk bodyBadEmail).2 =
        CEvent.save (mkContact bodyBadEmail) envOk.saveError.isNone :: rest) ∧
     (emailRegexTest (bodyBadEmail.email.getD "") = false →
       contactHandlerLegacy envOk bodyBadEmail =
         ({ status := 400, success := false, message := "Email inválido", debug := none }, []))) :=
  ⟨by decide, contact_validation_scope_amended envOk bodyBadEmail (by decide)⟩

/-- C10: whitespace-only (but non-empty) fields pass the truthiness check of
both persisting contact variants: the submission is treated as valid, the
record is persisted with the whitespace values unmodified, and both emails
are dispatched — no trimming or normalization is applied anywhere. -/
theorem contact_whitespace_fields_accepted (env : ContactEnv)
    (name email subject message : String)
    (hn : name ≠ "") (he : email ≠ "") (hs : subject ≠ "") (hm : message ≠ "")
    (_wn : name.toList.all isJsWhitespaceChar = true)
    (_we : email.toList.all isJsWhitespaceChar = true)
    (_ws : subject.toList.all isJsWhitespaceChar = true)
    (_wm : message.toList.all isJsWhitespaceChar = true)
    (hsave : env.saveError = none) (ho : env.ownerSendError = none)
    (hu : env.userSendError = none) :
    contactHandlerResend env
        { name := some name, email := some email, subject := some subject,
          message := some message } =
      ({ status := 200, success := true, message := "¡Mensaje recibido! Te contactaré pronto.",
         debug := none },
       [CEvent.save { name := name, email := email, subject := subject, message := message } true,
        CEvent.send (ownerMailResend name email subject message) true,
        CEvent.send (userMailResend name email subject) true]) ∧
    contactHandlerSmtp env
        { name := some name, email := some email, subject := some subject,
          message := some message } =
      ({ status := 200, success := true, message := "Mensaje enviado y guardado correctamente",
         debug := none },
       [CEvent.save { name := name, email := email, subject := subject, message := message } true,
        CEvent.send (ownerMailSmtp env.emailUser name email subject message) true,
        CEvent.send (userMailSmtp env.emailUser name email) true]) := by
  have hn' := isEmpty_false_of_ne hn
  have he' := isEmpty_false_of_ne he
  have hs' := isEmpty_false_of_ne hs
  have hm' := isEmpty_false_of_ne hm
  constructor <;>
    simp [contactHandlerResend, contactHandlerSmtp, contactValid, truthy,
          hn', he', hs', hm', hsave, ho, hu]

theorem contact_whitespace_fields_accepted_witness :
    (" " : String) ≠ "" ∧ (" " : String).toList.all isJsWhitespaceChar = true ∧
    (contactHandlerResend envOk
        { name := some " ", email := some " ", subject := some " ", message := some " " } =
      ({ status := 200, success := true, message := "¡Mensaje recibido! Te contactaré pronto.",
         debug := none },
       [CEvent.save { name := " ", email := " ", subject := " ", message := " " } true,
        CEvent.send (ownerMailResend " " " " " " " ") true,
        CEvent.send (userMailResend " " " " " ") true]) ∧
     contactHandlerSmtp envOk
        { name := some " ", email := some " ", subject := some " ", message := some " " } =
      ({ status := 200, success := true, message := "Mensaje enviado y guardado correctamente",
         debug := none },
       [CEvent.save { name := " ", email := " ", subject := " ", message := " " } true,
        CEvent.send (ownerMailSmtp envOk.emailUser " " " " " " " ") true,
        CEvent.send (userMailSmtp envOk.emailUser " " " ") true])) :=
  ⟨by decide, by decide,
   contact_whitespace_fields_accepted envOk " " " " " " " "
     (by decide) (by decide) (by decide) (by decide)
     (by decide) (by decide) (by decide) (by decide) rfl rfl rfl⟩

/-- C2 counterexample: in the legacy contact route, on a valid submission
whose admin send fails, only one email send is ever attempted (the second
`await transporter.sendMail` is reached only after the first succeeds), the
route answers 500 — and no record is persisted at any point, because the
legacy route has no store write at all. -/
theorem legacy_dispatch_sequential_cex :
    contactValid bodyAna = true ∧
    (contactHandlerLegacy envOwnerFail bodyAna).1.status = 500 ∧
    List.countP CEvent.isSend (contactHandlerLegacy envOwnerFail bodyAna).2 = 1 ∧
    List.countP CEvent.isOkSave (contactHandlerLegacy envOwnerFail bodyAna).2 = 0 :=
  ⟨by decide, by decide, by decide, by decide⟩

/-- What the dispatch step actually guarantees: in the two `Promise.all`
variants both sends are always issued after a successful write, the join
succeeds exactly when both sends succeed, a failed join yields a 500 while the
persisted record remains in the trace (no rollback); in the legacy variant
nothing is persisted and the sends are sequential, so when the admin send
fails only one send is attempted. -/
def DispatchJoin (env : ContactEnv) (b : ContactBody) : Prop :=
  (List.countP CEvent.isSend (contactHandlerResend env b).2 = 2 ∧
   List.countP CEvent.isSend (contactHandlerSmtp env b).2 = 2 ∧
   CEvent.save (mkContact b) true ∈ (contactHandlerResend env b).2 ∧
   CEvent.save (mkContact b) true ∈ (contactHandlerSmtp env b).2 ∧
   ((env.ownerSendError = none ∧ env.userSendError = none) ↔
     (contactHandlerResend env b).1.success = true) ∧
   ((env.ownerSendError = none ∧ env.userSendError = none) ↔
     (contactHandlerSmtp env b).1.success = true) ∧
   ((contactHandlerResend env b).1.success = false →
     (contactHandlerResend env b).1.status = 500) ∧
   ((contactHandlerSmtp env b).1.success = false →
     (contactHandlerSmtp env b).1.status = 500)) ∧
  (emailRegexTest (b.email.getD "") = true →
    List.countP CEvent.isOkSave (contactHandlerLegacy env b).2 = 0 ∧
    (∀ m, env.ownerSendError = some m →
      List.countP CEvent.isSend (contactHandlerLegacy env b).2 = 1 ∧
      (contactHandlerLegacy env b).1.status = 500))

/-- C2 amended: for every valid submission with a successful store write, the
dispatch step behaves as `DispatchJoin` states — all-or-nothing concurrent
join with the record kept in the two `Promise.all` variants, sequential
dispatch without persistence in the legacy variant. -/
theorem contact_dispatch_join_amended (env : ContactEnv) (b : ContactBody)
    (h : contactValid b = true) (hsave : env.saveError = none) :
    DispatchJoin env b := by
  constructor
  · rcases ho : env.ownerSendError with _ | mo <;> rcases hu : env.userSendError with _ | mu <;>
      simp [contactHandlerResend, contactHandlerSmtp, h, hsave, ho, hu,
            mkContact, List.countP_cons, CEvent.isSend, CEvent.isOkSave]
  · intro hre
    rcases ho : env.ownerSendError with _ | mo <;> rcases hu : env.userSendError with _ | mu <;>
      simp [contactHandlerLegacy, h, hre, ho, hu, List.countP_cons,
            CEvent.isSend, CEvent.isOkSave]

theorem contact_dispatch_join_amended_witness :
    contactValid bodyAna = true ∧ envOwnerFail.saveError = none ∧
    DispatchJoin envOwnerFail bodyAna :=
  ⟨by decide, by decide, contact_dispatch_join_amended envOwnerFail bodyAna (by decide) rfl⟩

/-- C9 counterexample: on a send failure the legacy contact route's JSON body
carries a `debug` field holding the raw transport error message — the
user-facing response is not only a generic message, so the contact boundary,
too, distinguishes error kinds. -/
theorem legacy_debug_field_cex :
    (contactHandlerLegacy envOwnerFail bodyAna).1.success = false ∧
    (contactHandlerLegacy envOwnerFail bodyAna).1.status = 500 ∧
    (contactHandlerLegacy envOwnerFail bodyAna).1.debug = some "Invalid login: 535-5.7.8" :=
  ⟨by decide, by decide, by decide⟩

/-- Response shape of the Resend contact route: one of the three statuses,
`success` true exactly on 200 (so false on every failure), a message from a
fixed generic set, never a debug field. -/
theorem resend_resp_shape (env : ContactEnv) (b : ContactBody) :
    ((contactHandlerResend env b).1.status = 200 ∨ (contactHandlerResend env b).1.status = 400 ∨
      (contactHandlerResend env b).1.status = 500) ∧
    ((contactHandlerResend env b).1.success = true ↔ (contactHandlerResend env b).1.status = 200) ∧
    (contactHandlerResend env b).1.debug = none ∧
    (contactHandlerResend env b).1.message ∈
      ["Todos los campos son requeridos", "Error interno del servidor.",
       "¡Mensaje recibido! Te contactaré pronto."] := by
  cases hv : contactValid b <;>
    rcases hs : env.saveError with _ | ms <;>
    rcases ho : env.ownerSendError with _ | mo <;>
    rcases hu : env.userSendError with _ | mu <;>
      simp [contactHandlerResend, validationResp, hv, hs, ho, hu]

/-- Response shape of the SMTP contact route: one of the three statuses,
`success` true exactly on 200 (so false on every failure), a message from a
fixed generic set, never a debug field. -/
theorem smtp_resp_shape (env : ContactEnv) (b : ContactBody) :
    ((contactHandlerSmtp env b).1.status = 200 ∨ (contactHandlerSmtp env b).1.status = 400 ∨
      (contactHandlerSmtp env b).1.status = 500) ∧
    ((contactHandlerSmtp env b).1.success = true ↔ (contactHandlerSmtp env b).1.status = 200) ∧
    (contactHandlerSmtp env b).1.debug = none ∧
    (contactHandlerSmtp env b).1.message ∈
      ["Todos los campos son requeridos", "Error interno al procesar tu mensaje.",
       "Mensaje enviado y guardado correctamente"] := by
  cases hv : contactValid b <;>
    rcases hs : env.saveError with _ | ms <;>
    rcases ho : env.ownerSendError with _ | mo <;>
    rcases hu : env.userSendError with _ | mu <;>
      simp [contactHandlerSmtp, validationResp, hv, hs, ho, hu]

/-- Response shape of the legacy contact route: one of the three statuses,
`success` true exactly on 200 (so false on every failure), a fixed message
set, and the debug field absent or equal to the raw error message of the
send that failed. -/
theorem legacy_resp_shape (env : ContactEnv) (b : ContactBody) :
    ((contactHandlerLegacy env b).1.status = 200 ∨ (contactHandlerLegacy env b).1.status = 400 ∨
      (contactHandlerLegacy env b).1.status = 500) ∧
    ((contactHandlerLegacy env b).1.success = true ↔ (contactHandlerLegacy env b).1.status = 200) ∧
    (contactHandlerLegacy env b).1.message ∈
      ["Todos los campos son requeridos", "Email inválido",
       "Error al enviar el mensaje. Por favor intenta nuevamente.",
       "Mensaje enviado correctamente"] ∧
    ((contactHandlerLegacy env b).1.debug = none ∨
      ∃ m, (env.ownerSendError = some m ∨ env.userSendError = some m) ∧
        (contactHandlerLegacy env b).1.debug = some m) := by
  cases hv : contactValid b <;>
    cases hre : emailRegexTest (b.email.getD "") <;>
    rcases ho : env.ownerSendError with _ | mo <;>
    rcases hu : env.userSendError with _ | mu <;>
      simp [contactHandlerLegacy, validationResp, hv, hre, ho, hu]

/-- Response shape of the subscribe route: one of the three statuses,
`success` true exactly on 200 (so false on every failure), a message from a
fixed set, never a debug field. -/
theorem subscribe_resp_shape (senv : SubscribeEnv) (emailField : Option String) :
    ((subscribeHandler senv emailField).1.status = 200 ∨
      (subscribeHandler senv emailField).1.status = 400 ∨
      (subscribeHandler senv emailField).1.status = 500) ∧
    ((subscribeHandler senv emailField).1.success = true ↔
      (subscribeHandler senv emailField).1.status = 200) ∧
    (subscribeHandler senv emailField).1.debug = none ∧
    (subscribeHandler senv emailField).1.message ∈
      ["Email inválido", "Este email ya está suscrito.", "Error interno.",
       "¡Gracias por suscribirte!"] := by
  cases hcond : (!truthy emailField || !emailRegexTest (emailField.getD "")) <;>
    cases hse : senv.existing <;>
    rcases hsv : senv.saveError with _ | msv <;>
      simp [subscribeHandler, hcond, hse, hsv]

/-- C9 amended: every route variant always produces a JSON response with one
of the statuses 200/400/500, `success` true exactly on 200 — so every
failure is mapped to a `success:false` body and no failure escapes the
boundary — and a message from a fixed per-route set; the persisting contact
variants and the subscribe route never expose error detail, but the legacy
contact route additionally attaches the raw error message as a `debug` field
when a send fails, so the contact boundary is not limited to generic text
there. -/
theorem boundary_error_mapping_amended (env : ContactEnv) (b : ContactBody)
    (senv : SubscribeEnv) (emailField : Option String) (rs : Nat) :
    ((contactHandlerResend env b).1.status = 200 ∨ (contactHandlerResend env b).1.status = 400 ∨
      (contactHandlerResend env b).1.status = 500) ∧
    ((contactHandlerSmtp env b).1.status = 200 ∨ (contactHandlerSmtp env b).1.status = 400 ∨
      (contactHandlerSmtp env b).1.status = 500) ∧
    ((contactHandlerLegacy env b).1.status = 200 ∨ (contactHandlerLegacy env b).1.status = 400 ∨
      (contactHandlerLegacy env b).1.status = 500) ∧
    ((subscribeHandler senv emailField).1.status = 200 ∨
      (subscribeHandler senv emailField).1.status = 400 ∨
      (subscribeHandler senv emailField).1.status = 500) ∧
    ((contactHandlerResend env b).1.success = true ↔ (contactHandlerResend env b).1.status = 200) ∧
    ((contactHandlerSmtp env b).1.success = true ↔ (contactHandlerSmtp env b).1.status = 200) ∧
    ((contactHandlerLegacy env b).1.success = true ↔ (contactHandlerLegacy env b).1.status = 200) ∧
    ((subscribeHandler senv emailField).1.success = true ↔
      (subscribeHandler senv emailField).1.status = 200) ∧
    (contactHandlerResend env b).1.debug = none ∧
    (contactHandlerSmtp env b).1.debug = none ∧
    (subscribeHandler senv emailField).1.debug = none ∧
    (contactHandlerResend env b).1.message ∈
      ["Todos los campos son requeridos", "Error interno del servidor.",
       "¡Mensaje recibido! Te contactaré pronto."] ∧
    (contactHandlerSmtp env b).1.message ∈
      ["Todos los campos son requeridos", "Error interno al procesar tu mensaje.",
       "Mensaje enviado y guardado correctamente"] ∧
    (subscribeHandler senv emailField).1.message ∈
      ["Email inválido", "Este email ya está suscrito.", "Error interno.",
       "¡Gracias por suscribirte!"] ∧
    (contactHandlerLegacy env b).1.message ∈
      ["Todos los campos son requeridos", "Email inválido",
       "Error al enviar el mensaje. Por favor intenta nuevamente.",
       "Mensaje enviado correctamente"] ∧
    ((contactHandlerLegacy env b).1.debug = none ∨
      ∃ m, (env.ownerSendError = some m ∨ env.userSendError = some m) ∧
        (contactHandlerLegacy env b).1.debug = some m) ∧
    (healthHandler rs).status = "OK" ∧ healthHandlerLegacy.status = "OK" := by
  obtain ⟨r1, r0, r2, r3⟩ := resend_resp_shape env b
  obtain ⟨s1, s0, s2, s3⟩ := smtp_resp_shape env b
  obtain ⟨l1, l0, l2, l3⟩ := legacy_resp_shape env b
  obtain ⟨u1, u0, u2, u3⟩ := subscribe_resp_shape senv emailField
  exact ⟨r1, s1, l1, u1, r0, s0, l0, u0, r2, s2, u2, r3, s3, u3, l2, l3, rfl, rfl⟩
